import Mathlib

/-!
Verification of the cuesta-trees reconciliation scripts.

This file gives a shallow embedding of the two scripts
`scripts/check_signs.py` and `scripts/check_taxonomy.py` and proves
properties of the reconciliation logic they implement.  Pandas cells are
modelled by an explicit missing value, HTTP exchanges with the GBIF API by
an explicit response argument (an `Except` whose error stands for a raised
`requests.exceptions.RequestException`), and the externally visible output
of the sign checker (the CSV report and the geopackage write-back) by a
trace of events.
-/

/-- A tabular cell as seen by pandas in check_signs.py: a string value or a
missing value.  A missing value is the Python None that gpd.read_file
returns for a null string field, or the float NaN the left merge fills in
for an unmatched key; pd.isna treats both as missing. -/
inductive Cell where
  | str (s : String)
  | na
deriving DecidableEq, Repr

/-- Python str applied to a cell on the comparison path of lines 87-91 of
check_signs.py.  There a missing cell is a Python None read from a table
(str gives "None"): the merge's NaN fill only occurs in rows whose master
scientific name is missing, and those take the not-found branch of line 83
before any str call. -/
def Cell.pyStr : Cell → String
  | .str s => s
  | .na => "None"

/-- Python lower: lowercasing of every character, written over the string's
character list. -/
def pyLower (s : String) : String :=
  String.mk (s.data.map Char.toLower)

/-- Python strip: drop whitespace from both ends, written over the string's
character list. -/
def pyStrip (s : String) : String :=
  String.mk
    (((s.data.dropWhile Char.isWhitespace).reverse.dropWhile
        Char.isWhitespace).reverse)

/-- The normalisation applied on both sides of every comparison in
check_signs.py: str, then strip, then lower. -/
def normCell (c : Cell) : String :=
  pyLower (pyStrip (Cell.pyStr c))

/-- One row of the sign_inventory_current table, restricted to the columns
check_signs.py touches: tree_id, the three sign name columns, and the
sign_status / sign_notes columns written by the update loop. -/
structure SignInvRow where
  tree_id : Cell
  sign_scientific_name : Cell
  sign_common_name : Cell
  sign_family : Cell
  sign_status : Cell
  sign_notes : Cell
deriving DecidableEq, Repr

/-- One row of the species_master_current table, restricted to the columns
check_signs.py reads. -/
structure MasterRow where
  tree_id : Cell
  scientific_name : Cell
  common_name : Cell
  family : Cell
  origin : Cell
deriving DecidableEq, Repr

/-- One row of merged_df in check_signs.py: the renamed sign columns
(suffixed _sign by the merge) next to the master columns (suffixed
_master), plus the master-only origin column. -/
structure SignRow where
  tree_id : Cell
  scientific_name_sign : Cell
  common_name_sign : Cell
  family_sign : Cell
  scientific_name_master : Cell
  common_name_master : Cell
  family_master : Cell
  origin : Cell
deriving DecidableEq, Repr

/-- The left merge of lines 70-76 of check_signs.py
(pd.merge on tree_id, how left): each sign row, in input order, is paired
with every master row whose tree_id equals its own (pandas merge keys treat
NaN as equal to NaN), and a sign row with no matching master row yields one
merged row whose master columns are all NaN. -/
def mergeRow (master : List MasterRow) (s : SignInvRow) : List SignRow :=
  let ms := master.filter fun m => m.tree_id = s.tree_id
  if ms = [] then
    [{ tree_id := s.tree_id
       scientific_name_sign := s.sign_scientific_name
       common_name_sign := s.sign_common_name
       family_sign := s.sign_family
       scientific_name_master := Cell.na
       common_name_master := Cell.na
       family_master := Cell.na
       origin := Cell.na }]
  else
    ms.map fun m =>
      { tree_id := s.tree_id
        scientific_name_sign := s.sign_scientific_name
        common_name_sign := s.sign_common_name
        family_sign := s.sign_family
        scientific_name_master := m.scientific_name
        common_name_master := m.common_name
        family_master := m.family
        origin := m.origin }

/-- The rows of merged_df, sign row by sign row. -/
def mergeLeft (signs : List SignInvRow) (master : List MasterRow) : List SignRow :=
  (signs.map (mergeRow master)).flatten

/-- The mismatch_reasons list built for one merged row by lines 80-92 of
check_signs.py: the "not found" reason alone when the master scientific
name is missing by pd.isna (the NaN fill of an unmatched tree_id, or a
null master name), otherwise one field reason per normalised inequality,
in the fixed order scientific name, common name, family. -/
def signMismatchReasons (row : SignRow) : List String :=
  if row.scientific_name_master = Cell.na then
    ["Tree ID not found in master list."]
  else
    (if normCell row.scientific_name_sign ≠ normCell row.scientific_name_master then
      ["Scientific name mismatch."] else [])
    ++ (if normCell row.common_name_sign ≠ normCell row.common_name_master then
      ["Common name mismatch."] else [])
    ++ (if normCell row.family_sign ≠ normCell row.family_master then
      ["Family mismatch."] else [])

/-- One entry of the discrepancies list of check_signs.py. -/
structure Discrepancy where
  tree_id : Cell
  note : String
  scientific_name : Cell
  common_name : Cell
  family : Cell
  origin : Cell
deriving DecidableEq, Repr

/-- The sentinel value recorded in every field of a discrepancy whose
tree_id has no master row (lines 100-103 of check_signs.py). -/
def missingSentinel : Cell := Cell.str "Missing from master list"

/-- The dictionary appended to discrepancies for one merged row by
lines 94-113 of check_signs.py, or none when the row's mismatch_reasons
list is empty. -/
def rowDiscrepancy (row : SignRow) : Option Discrepancy :=
  let reasons := signMismatchReasons row
  if reasons = [] then none
  else if row.scientific_name_master = Cell.na then
    some { tree_id := row.tree_id
           note := String.intercalate " " reasons
           scientific_name := missingSentinel
           common_name := missingSentinel
           family := missingSentinel
           origin := missingSentinel }
  else
    some { tree_id := row.tree_id
           note := String.intercalate " " reasons
           scientific_name := row.scientific_name_master
           common_name := row.common_name_master
           family := row.family_master
           origin := row.origin }

/-- One iteration of a discrepancies accumulation loop: append the produced
dictionary when there is one (the conditional list.append both scripts
perform). -/
def appendIfSome {β : Type} (acc : List β) (o : Option β) : List β :=
  match o with
  | some d => acc ++ [d]
  | none => acc

/-- The discrepancies accumulation loop of lines 78-113 of check_signs.py:
start from the empty list and append each produced dictionary in turn. -/
def findDiscrepancies (rows : List SignRow) : List Discrepancy :=
  rows.foldl (fun acc row => appendIfSome acc (rowDiscrepancy row)) []

/-- One row of new_sign_orders.csv: the discrepancy columns in the order
selected on line 125 of check_signs.py. -/
structure OrderRow where
  tree_id : Cell
  scientific_name : Cell
  common_name : Cell
  family : Cell
  origin : Cell
  note : String
deriving DecidableEq, Repr

/-- Column projection of line 125 of check_signs.py. -/
def toOrderRow (d : Discrepancy) : OrderRow :=
  { tree_id := d.tree_id
    scientific_name := d.scientific_name
    common_name := d.common_name
    family := d.family
    origin := d.origin
    note := d.note }

/-- Pandas element-wise equality on a key column, as used by line 134 of
check_signs.py: NaN compares unequal to everything, including NaN. -/
def seriesEq : Cell → Cell → Bool
  | Cell.str a, Cell.str b => a = b
  | _, _ => false

/-- One iteration of the update loop (lines 132-139 of check_signs.py):
set sign_status to "Sign Issue" and sign_notes to the discrepancy's note on
every inventory row whose tree_id equals the discrepancy's, and report
whether any row matched (the update_count increment condition). -/
def updateOne (signs : List SignInvRow) (d : Discrepancy) :
    List SignInvRow × Bool :=
  if signs.any fun r => seriesEq r.tree_id d.tree_id then
    (signs.map fun r =>
      if seriesEq r.tree_id d.tree_id then
        { r with sign_status := Cell.str "Sign Issue"
                 sign_notes := Cell.str d.note }
      else r, true)
  else (signs, false)

/-- The whole update loop with its update_count (lines 131-139 of
check_signs.py). -/
def updateLoop (signs : List SignInvRow) (discs : List Discrepancy) :
    List SignInvRow × Nat :=
  discs.foldl
    (fun st d =>
      let u := updateOne st.1 d
      (u.1, if u.2 then st.2 + 1 else st.2))
    (signs, 0)

/-- An externally visible output effect of check_and_correct_signs: the CSV
report write of line 126, or the geopackage write-back attempt of line 146
(its Bool records whether the attempt succeeded; a failure is caught by the
except clause of lines 148-149 and only printed). -/
inductive Event where
  | csvWrite (rows : List OrderRow)
  | gpkgWrite (table : List SignInvRow) (ok : Bool)
deriving DecidableEq, Repr

/-- The function check_and_correct_signs (lines 33-151 of check_signs.py)
as the sequence of output effects it performs: nothing when no discrepancy
is found (the early return of lines 116-118); otherwise the CSV report
write, followed — only when update_count is positive — by the attempt to
write the updated inventory table back to the geopackage.  The gpkgOk
argument models whether that attempted write raises; either way the run
ends normally with the CSV already written. -/
def check_and_correct_signs (signs : List SignInvRow) (master : List MasterRow)
    (gpkgOk : Bool) : List Event :=
  let discs := findDiscrepancies (mergeLeft signs master)
  if discs = [] then []
  else
    let u := updateLoop signs discs
    Event.csvWrite (discs.map toOrderRow)
      :: (if u.2 > 0 then [Event.gpkgWrite u.1 gpkgOk] else [])

/-- One row of the species table read by check_taxonomy.py, restricted to
the three columns the loop reads with row.get; a missing value is none. -/
structure SpeciesRow where
  scientific_name : Option String
  family : Option String
  common_name : Option String
deriving DecidableEq, Repr

/-- The fields of a GBIF species/match response body that
check_taxonomy.py reads; absent JSON keys are none. -/
structure GbifMatch where
  canonicalName : Option String
  family : Option String
  usageKey : Option Nat
  confidence : Option Int
  matchType : String
deriving DecidableEq, Repr

/-- One entry of the results array of a GBIF vernacularNames response. -/
structure VernacularEntry where
  language : Option String
  vernacularName : Option String
deriving DecidableEq, Repr

/-- Python truthiness of an optional string value: None and the empty
string are falsy. -/
def pyTruthy : Option String → Bool
  | none => false
  | some s => decide (s ≠ "")

/-- The function get_best_gbif_match (lines 25-53 of check_taxonomy.py).
The HTTP exchange is modelled by resp; its error stands for a raised
RequestException (transport error, timeout, bad status), which the handler
of lines 51-53 turns into None after printing.  A falsy or missing name
never triggers a lookup (line 36), and a response whose matchType is
"NONE" is not a conclusive match (line 48). -/
def get_best_gbif_match (scientificName : Option String)
    (resp : Except Unit GbifMatch) : Option GbifMatch :=
  if pyTruthy scientificName = false then none
  else
    match resp with
    | Except.error _ => none
    | Except.ok data => if data.matchType ≠ "NONE" then some data else none

/-- The scan of the results array in get_english_common_name_by_key
(lines 78-82 of check_taxonomy.py): return the vernacularName of the first
entry whose language is exactly "eng"; entries with any other language tag,
or with none, are skipped, and None is returned when no entry is tagged
"eng". -/
def firstEnglish : List VernacularEntry → Option String
  | [] => none
  | e :: rest =>
    if e.language = some "eng" then e.vernacularName else firstEnglish rest

/-- The function get_english_common_name_by_key (lines 55-85 of
check_taxonomy.py): a falsy usage key (None, or the integer 0) never
triggers a lookup; a transport error on the lookup yields None. -/
def get_english_common_name_by_key (usageKey : Option Nat)
    (resp : Except Unit (List VernacularEntry)) : Option String :=
  match usageKey with
  | none => none
  | some k =>
    if k = 0 then none
    else
      match resp with
      | Except.error _ => none
      | Except.ok results => firstEnglish results

/-- The comparison pattern of lines 127-133 of check_taxonomy.py:
lowercase inequality when both values are truthy, and False (no mismatch)
as soon as either side is missing or empty.  No whitespace is stripped. -/
def taxMismatch (orig gbif : Option String) : Bool :=
  if pyTruthy orig && pyTruthy gbif then
    decide (pyLower (orig.getD "") ≠ pyLower (gbif.getD ""))
  else false

/-- The disjunction of the three mismatch flags of lines 127-135 of
check_taxonomy.py, for a found match m and the common name fetched for
it. -/
def taxHasMismatch (row : SpeciesRow) (m : GbifMatch)
    (gbifCommon : Option String) : Bool :=
  taxMismatch row.scientific_name m.canonicalName
  || taxMismatch row.family m.family
  || taxMismatch row.common_name gbifCommon

/-- One subject of the check_taxonomy loop together with the two modelled
API responses its iteration would receive: the species/match response and
the vernacularNames response. -/
structure TaxInput where
  row : SpeciesRow
  matchResp : Except Unit GbifMatch
  vernResp : Except Unit (List VernacularEntry)

/-- One entry of the discrepancies list of check_taxonomy.py
(lines 136-145). -/
structure TaxDiscrepancy where
  original_scientific_name : Option String
  gbif_scientific_name : Option String
  original_family : Option String
  gbif_family : Option String
  original_common_name : Option String
  gbif_common_name : Option String
  gbif_match_confidence : Option Int
  gbif_match_type : String
deriving DecidableEq, Repr

/-- The body of the species loop of check_taxonomy.py (lines 109-145) for
one subject: the appended discrepancy dictionary, or none — both when the
subject has a conclusive match that agrees on every compared field, and
when it has no conclusive match at all (in which case the body records
nothing). -/
def processSpecies (inp : TaxInput) : Option TaxDiscrepancy :=
  match get_best_gbif_match inp.row.scientific_name inp.matchResp with
  | none => none
  | some m =>
    let gbifCommon := get_english_common_name_by_key m.usageKey inp.vernResp
    if taxHasMismatch inp.row m gbifCommon then
      some { original_scientific_name := inp.row.scientific_name
             gbif_scientific_name := m.canonicalName
             original_family := inp.row.family
             gbif_family := m.family
             original_common_name := inp.row.common_name
             gbif_common_name := gbifCommon
             gbif_match_confidence := m.confidence
             gbif_match_type := m.matchType }
    else none

/-- The discrepancies accumulation across the whole species table
(lines 108-145 of check_taxonomy.py). -/
def check_taxonomy (inputs : List TaxInput) : List TaxDiscrepancy :=
  inputs.foldl (fun acc inp => appendIfSome acc (processSpecies inp)) []

/-- Modelled from the spec (section 4.1 step 3), in its words: the
normalisation the spec prescribes for comparison — an absent or NaN value
is treated as the empty string, then trim and lowercase.  Used only to
compare the spec's prescription with the code's normCell. -/
def specNormalize : Cell → String
  | Cell.na => ""
  | Cell.str s => pyLower (pyStrip s)

/-- Modelled from the spec (section 4.1, name-match resolution), in its
words: the common-name selection rule — the first vernacular entry
explicitly tagged as English if one exists, otherwise the first entry with
no language tag, otherwise none.  Used only to compare the spec's
prescription with the code's loop. -/
def specCommonName (results : List VernacularEntry) : Option String :=
  match results.find? fun e => e.language = some "eng" with
  | some e => e.vernacularName
  | none =>
    match results.find? fun e => e.language = none with
    | some e => e.vernacularName
    | none => none

/-! Concrete rows and inputs used by witnesses and counterexamples. -/

/-- A merged row whose sign and master values agree only up to case and
surrounding whitespace. -/
def rowQuercus : SignRow :=
  { tree_id := Cell.str "1"
    scientific_name_sign := Cell.str "Quercus agrifolia"
    common_name_sign := Cell.str "Coast Live Oak"
    family_sign := Cell.str "Fagaceae"
    scientific_name_master := Cell.str " quercus AGRIFOLIA "
    common_name_master := Cell.str "Coast Live Oak"
    family_master := Cell.str "Fagaceae"
    origin := Cell.str "Native" }

/-- A merged row whose sign and master values agree exactly. -/
def rowConsistent : SignRow :=
  { tree_id := Cell.str "2"
    scientific_name_sign := Cell.str "Platanus racemosa"
    common_name_sign := Cell.str "Western Sycamore"
    family_sign := Cell.str "Platanaceae"
    scientific_name_master := Cell.str "Platanus racemosa"
    common_name_master := Cell.str "Western Sycamore"
    family_master := Cell.str "Platanaceae"
    origin := Cell.str "Native" }

/-- A merged row with a matched master whose common name is missing (a
null cell, Python None) while the sign carries the literal text "None". -/
def rowNoneLiteral : SignRow :=
  { tree_id := Cell.str "7"
    scientific_name_sign := Cell.str "Acer rubrum"
    common_name_sign := Cell.str "None"
    family_sign := Cell.str "Sapindaceae"
    scientific_name_master := Cell.str "Acer rubrum"
    common_name_master := Cell.na
    family_master := Cell.str "Sapindaceae"
    origin := Cell.str "Non-native" }

/-- A merged row for a tree_id absent from the master list: all master
columns are NaN after the left merge. -/
def rowNoMaster : SignRow :=
  { tree_id := Cell.str "9"
    scientific_name_sign := Cell.str "Pinus radiata"
    common_name_sign := Cell.str "Monterey Pine"
    family_sign := Cell.str "Pinaceae"
    scientific_name_master := Cell.na
    common_name_master := Cell.na
    family_master := Cell.na
    origin := Cell.na }

/-- An inventory row whose tree_id has no master counterpart. -/
def signMissing : SignInvRow :=
  { tree_id := Cell.str "9"
    sign_scientific_name := Cell.str "Pinus radiata"
    sign_common_name := Cell.str "Monterey Pine"
    sign_family := Cell.str "Pinaceae"
    sign_status := Cell.str "Installed"
    sign_notes := Cell.str "" }

/-- An inventory row consistent with masterOak. -/
def signOak : SignInvRow :=
  { tree_id := Cell.str "4"
    sign_scientific_name := Cell.str "Quercus lobata"
    sign_common_name := Cell.str "Valley Oak"
    sign_family := Cell.str "Fagaceae"
    sign_status := Cell.str "Installed"
    sign_notes := Cell.str "" }

/-- The master row matching signOak exactly. -/
def masterOak : MasterRow :=
  { tree_id := Cell.str "4"
    scientific_name := Cell.str "Quercus lobata"
    common_name := Cell.str "Valley Oak"
    family := Cell.str "Fagaceae"
    origin := Cell.str "Native" }

/-- An inventory row whose tree_id occurs twice in the master list. -/
def signPinus : SignInvRow :=
  { tree_id := Cell.str "3"
    sign_scientific_name := Cell.str "Pinus radiata"
    sign_common_name := Cell.str "Monterey Pine"
    sign_family := Cell.str "Pinaceae"
    sign_status := Cell.str "Installed"
    sign_notes := Cell.str "" }

/-- First master row sharing signPinus's tree_id. -/
def masterDup1 : MasterRow :=
  { tree_id := Cell.str "3"
    scientific_name := Cell.str "Pinus pinaster"
    common_name := Cell.str "Maritime Pine"
    family := Cell.str "Pinaceae"
    origin := Cell.str "Non-native" }

/-- Second master row sharing signPinus's tree_id. -/
def masterDup2 : MasterRow :=
  { tree_id := Cell.str "3"
    scientific_name := Cell.str "Pinus muricata"
    common_name := Cell.str "Bishop Pine"
    family := Cell.str "Pinaceae"
    origin := Cell.str "Native" }

/-- A taxonomy subject whose lookup answers matchType NONE: the authority
finds no counterpart. -/
def c2Input : TaxInput :=
  { row := { scientific_name := some "Pinus radiata"
             family := some "Pinaceae"
             common_name := some "Monterey Pine" }
    matchResp := Except.ok
      { canonicalName := none, family := none, usageKey := none
        confidence := none, matchType := "NONE" }
    vernResp := Except.ok [] }

/-- A taxonomy subject whose sign value is padded and case-flipped relative
to the canonical name the authority returns. -/
def c1Input : TaxInput :=
  { row := { scientific_name := some " quercus AGRIFOLIA "
             family := some "Fagaceae"
             common_name := some "Coast Live Oak" }
    matchResp := Except.ok
      { canonicalName := some "Quercus agrifolia", family := some "Fagaceae"
        usageKey := some 2878688, confidence := some 99, matchType := "EXACT" }
    vernResp := Except.ok
      [{ language := some "eng", vernacularName := some "Coast Live Oak" }] }

/-- A taxonomy subject whose match lookup raises a transport error. -/
def errInput : TaxInput :=
  { row := { scientific_name := some "Acer rubrum"
             family := some "Sapindaceae"
             common_name := some "Red Maple" }
    matchResp := Except.error ()
    vernResp := Except.error () }

/-- A vernacularNames result holding only an entry with no language tag. -/
def untaggedOnly : List VernacularEntry :=
  [{ language := none, vernacularName := some "Valley Oak" }]

/-- A vernacularNames result whose second entry is English-tagged. -/
def engSecond : List VernacularEntry :=
  [{ language := some "spa", vernacularName := some "Roble" },
   { language := some "eng", vernacularName := some "Valley Oak" }]

/-! Helper lemmas about the accumulation loops. -/

/-- An append-accumulating fold over an option-producing body is a
filterMap. -/
theorem foldl_push_eq_filterMap {α β : Type} (f : α → Option β) :
    ∀ (rows : List α) (acc : List β),
      rows.foldl (fun acc row => appendIfSome acc (f row)) acc
        = acc ++ rows.filterMap f := by
  intro rows
  induction rows with
  | nil => intro acc; simp
  | cons r rs ih =>
    intro acc
    rw [List.foldl_cons, ih]
    cases h : f r with
    | none => simp [appendIfSome, h]
    | some d => simp [appendIfSome, h]

/-- The sign-checker loop is the filterMap of its body. -/
theorem findDiscrepancies_eq_filterMap (rows : List SignRow) :
    findDiscrepancies rows = rows.filterMap rowDiscrepancy := by
  have h := foldl_push_eq_filterMap rowDiscrepancy rows []
  simpa [findDiscrepancies] using h

/-- The taxonomy-checker loop is the filterMap of its body. -/
theorem check_taxonomy_eq_filterMap (inputs : List TaxInput) :
    check_taxonomy inputs = inputs.filterMap processSpecies := by
  have h := foldl_push_eq_filterMap processSpecies inputs []
  simpa [check_taxonomy] using h

/-- The body of the sign loop produces a dictionary exactly when the row
has a mismatch reason. -/
theorem rowDiscrepancy_isSome (row : SignRow) :
    (rowDiscrepancy row).isSome ↔ signMismatchReasons row ≠ [] := by
  by_cases hr : signMismatchReasons row = [] <;>
    by_cases hm : row.scientific_name_master = Cell.na <;>
      simp [rowDiscrepancy, hr, hm]

/-- C5: for every input subject sequence, the output discrepancy sequence
lists discrepancies in the same relative order as the subjects that
produced them appear in the input, regardless of how many subjects are
dropped: each loop equals the filterMap of its per-subject body and
distributes over append, so the output is the input order with the
discrepancy-free subjects deleted and no resorting. -/
theorem c5_output_order_matches_input_order :
    (∀ rows : List SignRow,
      findDiscrepancies rows = rows.filterMap rowDiscrepancy)
    ∧ (∀ rows₁ rows₂ : List SignRow,
        findDiscrepancies (rows₁ ++ rows₂)
          = findDiscrepancies rows₁ ++ findDiscrepancies rows₂)
    ∧ (∀ inputs : List TaxInput,
        check_taxonomy inputs = inputs.filterMap processSpecies)
    ∧ (∀ inputs₁ inputs₂ : List TaxInput,
        check_taxonomy (inputs₁ ++ inputs₂)
          = check_taxonomy inputs₁ ++ check_taxonomy inputs₂) := by
  refine ⟨findDiscrepancies_eq_filterMap, ?_, check_taxonomy_eq_filterMap, ?_⟩
  · intro rows₁ rows₂
    simp [findDiscrepancies_eq_filterMap, List.filterMap_append]
  · intro inputs₁ inputs₂
    simp [check_taxonomy_eq_filterMap, List.filterMap_append]

/-- C4: a Discrepancy is produced for a subject if and only if at least one
reason was recorded for it, and a subject with zero reasons contributes
nothing to the output sequence; in the taxonomy variant a dictionary is
appended exactly when a conclusive match was found and at least one of the
three mismatch flags is set. -/
theorem c4_discrepancy_iff_reason :
    (∀ row : SignRow,
      (rowDiscrepancy row).isSome ↔ signMismatchReasons row ≠ [])
    ∧ (∀ (rows₁ rows₂ : List SignRow) (row : SignRow),
        signMismatchReasons row = [] →
        findDiscrepancies (rows₁ ++ row :: rows₂)
          = findDiscrepancies (rows₁ ++ rows₂))
    ∧ (∀ inp : TaxInput,
        (processSpecies inp).isSome ↔
          ∃ m : GbifMatch,
            get_best_gbif_match inp.row.scientific_name inp.matchResp = some m
            ∧ taxHasMismatch inp.row m
                (get_english_common_name_by_key m.usageKey inp.vernResp)
              = true) := by
  refine ⟨rowDiscrepancy_isSome, ?_, ?_⟩
  · intro rows₁ rows₂ row h
    have hnone : rowDiscrepancy row = none := by
      simp [rowDiscrepancy, h]
    simp [findDiscrepancies_eq_filterMap, List.filterMap_append,
      List.filterMap_cons, hnone]
  · intro inp
    cases hm : get_best_gbif_match inp.row.scientific_name inp.matchResp with
    | none => simp [processSpecies, hm]
    | some m =>
      by_cases hf :
          taxHasMismatch inp.row m
            (get_english_common_name_by_key m.usageKey inp.vernResp) = true
      · simp [processSpecies, hm, hf]
      · simp [processSpecies, hm, hf]

/-- Witness for C4, at a fully consistent sign row (zero reasons, no
discrepancy, and its insertion anywhere leaves the output unchanged) and at
a taxonomy subject whose lookup is inconclusive. -/
theorem c4_discrepancy_iff_reason_witness :
    ((rowDiscrepancy rowConsistent).isSome ↔
      signMismatchReasons rowConsistent ≠ [])
    ∧ findDiscrepancies ([] ++ rowConsistent :: [])
        = findDiscrepancies ([] ++ [])
    ∧ ((processSpecies c2Input).isSome ↔
        ∃ m : GbifMatch,
          get_best_gbif_match c2Input.row.scientific_name c2Input.matchResp
            = some m
          ∧ taxHasMismatch c2Input.row m
              (get_english_common_name_by_key m.usageKey c2Input.vernResp)
            = true) :=
  ⟨c4_discrepancy_iff_reason.1 rowConsistent,
   c4_discrepancy_iff_reason.2.1 [] [] rowConsistent (by decide),
   c4_discrepancy_iff_reason.2.2 c2Input⟩

/-- C8: a transport error on the external-authority lookup is turned into
"no match" locally — get_best_gbif_match returns None whatever the queried
name is — and the subject it happened to contributes nothing while every
other subject of the run is processed exactly as before: dropping the
erroring subject from the head of the input leaves the output of the rest
unchanged. -/
theorem c8_transport_error_isolated :
    (∀ name : Option String,
      get_best_gbif_match name (Except.error ()) = none)
    ∧ (∀ (inp : TaxInput) (inputs : List TaxInput),
        inp.matchResp = Except.error () →
        processSpecies inp = none
        ∧ check_taxonomy (inp :: inputs) = check_taxonomy inputs) := by
  have hbest : ∀ name : Option String,
      get_best_gbif_match name (Except.error ()) = none := by
    intro name
    by_cases h : pyTruthy name = false <;> simp [get_best_gbif_match, h]
  refine ⟨hbest, ?_⟩
  intro inp inputs h
  have hproc : processSpecies inp = none := by
    simp [processSpecies, h, hbest]
  exact ⟨hproc, by
    simp [check_taxonomy_eq_filterMap, List.filterMap_cons, hproc]⟩

/-- Witness for C8: a concrete erroring lookup, followed by a subject that
is still processed. -/
theorem c8_transport_error_isolated_witness :
    get_best_gbif_match errInput.row.scientific_name (Except.error ()) = none
    ∧ processSpecies errInput = none
    ∧ check_taxonomy (errInput :: [c1Input]) = check_taxonomy [c1Input] :=
  ⟨c8_transport_error_isolated.1 errInput.row.scientific_name,
   (c8_transport_error_isolated.2 errInput [c1Input] rfl).1,
   (c8_transport_error_isolated.2 errInput [c1Input] rfl).2⟩

/-- C9: whenever any discrepancy exists, the CSV report write is the first
output effect of check_and_correct_signs — strictly before the geopackage
write-back, which is the only kind of effect that can follow — and this
holds whatever the outcome gpkgOk of that write-back attempt, so a failed
write-back never loses the already-produced report. -/
theorem c9_report_before_update (signs : List SignInvRow)
    (master : List MasterRow) (gpkgOk : Bool)
    (h : findDiscrepancies (mergeLeft signs master) ≠ []) :
    ∃ rest : List Event,
      check_and_correct_signs signs master gpkgOk
        = Event.csvWrite
            ((findDiscrepancies (mergeLeft signs master)).map toOrderRow)
          :: rest
      ∧ ∀ e ∈ rest, ∃ t b, e = Event.gpkgWrite t b := by
  refine ⟨if (updateLoop signs (findDiscrepancies (mergeLeft signs master))).2 > 0
      then [Event.gpkgWrite
        (updateLoop signs (findDiscrepancies (mergeLeft signs master))).1 gpkgOk]
      else [], ?_, ?_⟩
  · simp [check_and_correct_signs, h]
  · intro e he
    by_cases hc :
        (updateLoop signs (findDiscrepancies (mergeLeft signs master))).2 > 0
    · simp [hc] at he
      exact ⟨_, _, he⟩
    · simp [hc] at he

/-- Witness for C9: one inventory row with no master counterpart, and a
failing geopackage write (gpkgOk false): the trace still starts with the
CSV report. -/
theorem c9_report_before_update_witness :
    ∃ rest : List Event,
      check_and_correct_signs [signMissing] [] false
        = Event.csvWrite
            ((findDiscrepancies (mergeLeft [signMissing] [])).map toOrderRow)
          :: rest
      ∧ ∀ e ∈ rest, ∃ t b, e = Event.gpkgWrite t b :=
  c9_report_before_update [signMissing] [] false (by decide)

/-- C10: when no subject produces a discrepancy, check_and_correct_signs
performs no output effect at all — no CSV write and no geopackage write, so
no sign_status or sign_notes value is persisted anywhere. -/
theorem c10_no_discrepancy_no_effects (signs : List SignInvRow)
    (master : List MasterRow) (gpkgOk : Bool)
    (h : findDiscrepancies (mergeLeft signs master) = []) :
    check_and_correct_signs signs master gpkgOk = [] := by
  simp [check_and_correct_signs, h]

/-- Witness for C10: a run over one inventory row that matches its master
row exactly produces an empty effect trace. -/
theorem c10_no_discrepancy_no_effects_witness :
    check_and_correct_signs [signOak] [masterOak] true = [] :=
  c10_no_discrepancy_no_effects [signOak] [masterOak] true (by decide)

/-- C1 counterexample: the taxonomy variant lowercases but never strips, so
the pair "Quercus agrifolia" and " quercus AGRIFOLIA " does yield a
mismatch there — the full loop records a discrepancy for a subject whose
recorded name differs from the canonical name only by surrounding
whitespace and case.  This refutes "never byte-for-byte, trim then
lowercase, in any variant". -/
theorem c1_counterexample :
    taxMismatch (some "Quercus agrifolia") (some " quercus AGRIFOLIA ") = true
    ∧ check_taxonomy [c1Input] ≠ [] :=
  ⟨by decide, by decide⟩

/-- C1 amended: the sign variant compares strip-then-lower — a matched row
yields no reason exactly when its three field pairs agree after normCell,
and the Quercus pair agrees — while the taxonomy variant compares lowercase
without stripping, so the same pair is flagged there. -/
theorem c1_amended_normalization_per_variant :
    (∀ row : SignRow, row.scientific_name_master ≠ Cell.na →
      (signMismatchReasons row = [] ↔
        (normCell row.scientific_name_sign
            = normCell row.scientific_name_master
         ∧ normCell row.common_name_sign = normCell row.common_name_master
         ∧ normCell row.family_sign = normCell row.family_master)))
    ∧ normCell (Cell.str "Quercus agrifolia")
        = normCell (Cell.str " quercus AGRIFOLIA ")
    ∧ taxMismatch (some "Quercus agrifolia") (some " quercus AGRIFOLIA ")
        = true := by
  refine ⟨?_, by decide, by decide⟩
  intro row h
  by_cases h1 :
      normCell row.scientific_name_sign = normCell row.scientific_name_master <;>
    by_cases h2 :
        normCell row.common_name_sign = normCell row.common_name_master <;>
      by_cases h3 : normCell row.family_sign = normCell row.family_master <;>
        simp [signMismatchReasons, h, h1, h2, h3]

/-- Witness for C1 (amended), at a matched row whose fields differ only by
case and surrounding whitespace. -/
theorem c1_amended_normalization_witness :
    (signMismatchReasons rowQuercus = [] ↔
      (normCell rowQuercus.scientific_name_sign
          = normCell rowQuercus.scientific_name_master
       ∧ normCell rowQuercus.common_name_sign
          = normCell rowQuercus.common_name_master
       ∧ normCell rowQuercus.family_sign
          = normCell rowQuercus.family_master))
    ∧ normCell (Cell.str "Quercus agrifolia")
        = normCell (Cell.str " quercus AGRIFOLIA ")
    ∧ taxMismatch (some "Quercus agrifolia") (some " quercus AGRIFOLIA ")
        = true :=
  ⟨c1_amended_normalization_per_variant.1 rowQuercus (by decide),
   c1_amended_normalization_per_variant.2.1,
   c1_amended_normalization_per_variant.2.2⟩

/-- C2 counterexample: in the taxonomy variant a subject for which the
reference resolution finds no counterpart (the authority answers with
matchType NONE) is silently omitted — no discrepancy is emitted at all,
refuting "such subjects are never silently omitted from the output". -/
theorem c2_counterexample :
    get_best_gbif_match c2Input.row.scientific_name c2Input.matchResp = none
    ∧ check_taxonomy [c2Input] = [] :=
  ⟨by decide, by decide⟩

/-- C2 amended: only in the sign variant does a subject with no counterpart
yield a Discrepancy, with reason list exactly the "not found" reason and
every comparable field set to the distinguishable sentinel "Missing from
master list"; the taxonomy variant emits nothing for a subject without a
conclusive match. -/
theorem c2_amended_not_found_sentinel :
    (∀ row : SignRow, row.scientific_name_master = Cell.na →
      signMismatchReasons row = ["Tree ID not found in master list."]
      ∧ rowDiscrepancy row = some
          { tree_id := row.tree_id
            note := "Tree ID not found in master list."
            scientific_name := missingSentinel
            common_name := missingSentinel
            family := missingSentinel
            origin := missingSentinel })
    ∧ (∀ inp : TaxInput,
        get_best_gbif_match inp.row.scientific_name inp.matchResp = none →
        processSpecies inp = none) := by
  constructor
  · intro row h
    refine ⟨by simp [signMismatchReasons, h], ?_⟩
    simp [rowDiscrepancy, signMismatchReasons, h]
    rfl
  · intro inp h
    simp [processSpecies, h]

/-- Witness for C2 (amended), at a merged row with NaN master columns and a
taxonomy subject with an inconclusive match. -/
theorem c2_amended_not_found_sentinel_witness :
    (signMismatchReasons rowNoMaster = ["Tree ID not found in master list."]
     ∧ rowDiscrepancy rowNoMaster = some
        { tree_id := rowNoMaster.tree_id
          note := "Tree ID not found in master list."
          scientific_name := missingSentinel
          common_name := missingSentinel
          family := missingSentinel
          origin := missingSentinel })
    ∧ processSpecies c2Input = none :=
  ⟨c2_amended_not_found_sentinel.1 rowNoMaster (by decide),
   c2_amended_not_found_sentinel.2 c2Input (by decide)⟩

/-- C3 counterexample: the sign variant stringifies a missing value to
"None" rather than treating it as the empty string, so a sign whose common
name is the literal text "None" — a non-blank value — compares equal to a
missing master common name and no mismatch is recorded, while the claim
(absent is the empty string, which differs from any non-blank value)
demands one. -/
theorem c3_counterexample :
    signMismatchReasons rowNoneLiteral = []
    ∧ specNormalize rowNoneLiteral.common_name_sign
        ≠ specNormalize rowNoneLiteral.common_name_master :=
  ⟨by decide, by decide⟩

/-- C3 amended: in the sign variant an absent value (a null cell, Python
None) is stringified to "None" and normalised to "none" before the
comparison — so an absent subject value equals an absent reference value,
but it coincides with any value normalising to "none" instead of differing
from every non-blank value (and differs from the empty string); in the
taxonomy variant a missing value on either side suppresses the mismatch
entirely. -/
theorem c3_amended_none_stringified :
    normCell Cell.na = "none"
    ∧ (∀ row : SignRow, row.scientific_name_master ≠ Cell.na →
        ("Common name mismatch." ∈ signMismatchReasons row ↔
          normCell row.common_name_sign ≠ normCell row.common_name_master))
    ∧ (∀ x : Option String,
        taxMismatch none x = false ∧ taxMismatch x none = false) := by
  refine ⟨by decide, ?_, ?_⟩
  · intro row h
    by_cases h1 :
        normCell row.scientific_name_sign = normCell row.scientific_name_master <;>
      by_cases h2 :
          normCell row.common_name_sign = normCell row.common_name_master <;>
        by_cases h3 : normCell row.family_sign = normCell row.family_master <;>
          simp [signMismatchReasons, h, h1, h2, h3]
  · intro x
    refine ⟨by simp [taxMismatch, pyTruthy], ?_⟩
    cases x <;> simp [taxMismatch, pyTruthy]

/-- Witness for C3 (amended), at the row carrying the literal "None"
against a missing master value. -/
theorem c3_amended_none_stringified_witness :
    ("Common name mismatch." ∈ signMismatchReasons rowNoneLiteral ↔
      normCell rowNoneLiteral.common_name_sign
        ≠ normCell rowNoneLiteral.common_name_master)
    ∧ (taxMismatch none (some "Red Maple") = false
       ∧ taxMismatch (some "Red Maple") none = false) :=
  ⟨c3_amended_none_stringified.2.1 rowNoneLiteral (by decide),
   c3_amended_none_stringified.2.2 (some "Red Maple")⟩

/-- A sign row expands to at most one merged row when at most one master
row shares its tree_id. -/
theorem mergeRow_length_le (master : List MasterRow) (s : SignInvRow)
    (h : (master.filter fun m => m.tree_id = s.tree_id).length ≤ 1) :
    (mergeRow master s).length ≤ 1 := by
  by_cases hms : (master.filter fun m => m.tree_id = s.tree_id) = []
  · simp [mergeRow, hms]
  · simpa [mergeRow, hms] using h

/-- Under unique master keys the merged table is no longer than the sign
table. -/
theorem mergeLeft_length_le (signs : List SignInvRow) (master : List MasterRow)
    (h : ∀ s : SignInvRow,
      (master.filter fun m => m.tree_id = s.tree_id).length ≤ 1) :
    (mergeLeft signs master).length ≤ signs.length := by
  induction signs with
  | nil => simp [mergeLeft]
  | cons s rest ih =>
    have h1 : (mergeRow master s).length ≤ 1 := mergeRow_length_le master s (h s)
    simp only [mergeLeft, List.map_cons, List.flatten_cons, List.length_append,
      List.length_cons] at ih ⊢
    omega

/-- C6 counterexample: with a master table holding two rows for the same
tree_id, the single subject signPinus yields two discrepancies in one run —
the left merge duplicates the subject once per matching master row — so a
subject can contribute more than one Discrepancy. -/
theorem c6_counterexample :
    (findDiscrepancies (mergeLeft [signPinus] [masterDup1, masterDup2])).length
      = 2 := by
  decide

/-- C6 amended: a subject contributes at most one Discrepancy per matching
master row — hence at most one per run whenever each tree_id matches at
most one master row — and the field-level reasons of a matched row always
form a sublist of the three labels in comparison order (scientific name,
then common name, then family), joined unchanged into the discrepancy's
note. -/
theorem c6_amended_at_most_one_per_match :
    (∀ (signs : List SignInvRow) (master : List MasterRow),
      (∀ s : SignInvRow,
        (master.filter fun m => m.tree_id = s.tree_id).length ≤ 1) →
      (findDiscrepancies (mergeLeft signs master)).length ≤ signs.length)
    ∧ (∀ row : SignRow, row.scientific_name_master ≠ Cell.na →
        List.Sublist (signMismatchReasons row)
          ["Scientific name mismatch.", "Common name mismatch.",
           "Family mismatch."])
    ∧ (∀ (row : SignRow) (d : Discrepancy), rowDiscrepancy row = some d →
        d.note = String.intercalate " " (signMismatchReasons row)) := by
  refine ⟨?_, ?_, ?_⟩
  · intro signs master h
    calc (findDiscrepancies (mergeLeft signs master)).length
        ≤ (mergeLeft signs master).length := by
          rw [findDiscrepancies_eq_filterMap]
          exact List.length_filterMap_le _ _
      _ ≤ signs.length := mergeLeft_length_le signs master h
  · intro row h
    by_cases h1 :
        normCell row.scientific_name_sign = normCell row.scientific_name_master <;>
      by_cases h2 :
          normCell row.common_name_sign = normCell row.common_name_master <;>
        by_cases h3 : normCell row.family_sign = normCell row.family_master <;>
          simp [signMismatchReasons, h, h1, h2, h3]
  · intro row d hd
    by_cases hr : signMismatchReasons row = []
    · simp [rowDiscrepancy, hr] at hd
    · by_cases hm : row.scientific_name_master = Cell.na <;>
        · simp [rowDiscrepancy, hr, hm] at hd
          rw [← hd]

/-- Witness for C6 (amended): a one-row master table trivially has unique
keys; the merged Quercus row is matched; the not-found row yields a
discrepancy whose note joins its single reason. -/
theorem c6_amended_at_most_one_per_match_witness :
    (findDiscrepancies (mergeLeft [signPinus] [masterDup1])).length
      ≤ [signPinus].length
    ∧ List.Sublist (signMismatchReasons rowQuercus)
        ["Scientific name mismatch.", "Common name mismatch.",
         "Family mismatch."]
    ∧ ({ tree_id := Cell.str "9"
         note := "Tree ID not found in master list."
         scientific_name := missingSentinel
         common_name := missingSentinel
         family := missingSentinel
         origin := missingSentinel } : Discrepancy).note
        = String.intercalate " " (signMismatchReasons rowNoMaster) :=
  ⟨c6_amended_at_most_one_per_match.1 [signPinus] [masterDup1]
    (fun s => le_trans (List.length_filter_le _ _) (by decide)),
   c6_amended_at_most_one_per_match.2.1 rowQuercus (by decide),
   c6_amended_at_most_one_per_match.2.2 rowNoMaster _ (by decide)⟩

/-- The vernacular-name scan agrees with a find? of the first
English-tagged entry: no other entry is ever consulted. -/
theorem firstEnglish_eq_find (results : List VernacularEntry) :
    firstEnglish results
      = (results.find? fun e => e.language = some "eng").bind
          VernacularEntry.vernacularName := by
  induction results with
  | nil => simp [firstEnglish]
  | cons e rest ih =>
    by_cases h : e.language = some "eng"
    · simp [firstEnglish, h]
    · simp [firstEnglish, h, ih]

/-- C7 counterexample: a vernacularNames result holding a single entry with
no language tag makes the lookup return None, while the claimed fallback
(first entry with no language tag) would return its name. -/
theorem c7_counterexample :
    get_english_common_name_by_key (some 5) (Except.ok untaggedOnly) = none
    ∧ specCommonName untaggedOnly = some "Valley Oak" :=
  ⟨by decide, by decide⟩

/-- C7 amended: for a truthy usage key and a successful lookup, the
common-name resolution returns the vernacularName of the first entry
explicitly tagged "eng" when one exists and otherwise None — there is no
fallback to entries with no language tag; a missing key never triggers a
lookup. -/
theorem c7_amended_english_only (k : Nat) (results : List VernacularEntry)
    (hk : k ≠ 0) :
    get_english_common_name_by_key (some k) (Except.ok results)
      = (results.find? fun e => e.language = some "eng").bind
          VernacularEntry.vernacularName
    ∧ get_english_common_name_by_key none (Except.ok results) = none := by
  refine ⟨?_, rfl⟩
  simp [get_english_common_name_by_key, hk, firstEnglish_eq_find]

/-- Witness for C7 (amended): a result list whose English entry comes
second, behind a Spanish one. -/
theorem c7_amended_english_only_witness :
    get_english_common_name_by_key (some 5) (Except.ok engSecond)
      = (engSecond.find? fun e => e.language = some "eng").bind
          VernacularEntry.vernacularName
    ∧ get_english_common_name_by_key none (Except.ok engSecond) = none :=
  c7_amended_english_only 5 engSecond (by decide)
